import Mathlib

/-!
Verification of the `Explorer` surveyor (`angr/surveyors/explorer.py`):
a guided-search controller that classifies freshly stepped symbolic paths
into terminal buckets (found / avoided / deviating / looping) or keeps
them active, maintains a shared visit counter, and decides termination.

The embedding below follows the Python source function by function:
`_arg_to_set`, `done`, `_match`, `filter_path`, and the constructor
defaults of `__init__`.
-/

namespace Explorer

/-- An element of a step-address set.  The Python code stores plain integer
addresses, but for a non-`SimIRSB` last run it also inserts the path's class
name (a string) into the same set (`{ p.last_run.addr, p.__class__.__name__ }`),
so the carrier type must accommodate both. -/
inductive Addr where
  | addr : Nat → Addr
  | tag : String → Addr
  deriving DecidableEq

/-- The "last run" descriptor of a path: either a decoded IRSB block exposing
the instruction-mark addresses it covers (`SimIRSB.imark_addrs()`), or an
atomic (non-block) step at a single address. -/
inductive LastRun where
  | simIRSB : List Nat → LastRun
  | atomicStep : Nat → LastRun
  deriving DecidableEq

/-- The read contract of a path: its address backtrace, its last run, its
class name (`p.__class__.__name__`), and the loop-repeat query
`p.detect_loops(max_repeats)`. -/
structure Path where
  addr_backtrace : List Nat
  last_run : LastRun
  className : String
  detect_loops : Nat → Nat

/-- A normalized criterion, the result of `_arg_to_set`: a set of addresses
or a predicate over paths. -/
inductive Criterion where
  | addrSet : Finset Addr → Criterion
  | pred : (Path → Bool) → Criterion

/-- A caller-supplied criterion argument before normalization: a single
integer address, a collection of addresses, or a callable. -/
inductive CriterionArg where
  | single : Nat → CriterionArg
  | addrs : List Nat → CriterionArg
  | fn : (Path → Bool) → CriterionArg

/-- `Explorer._arg_to_set`: a single integer becomes a singleton set, a
function stays a predicate, any other collection becomes a set. -/
def arg_to_set : CriterionArg → Criterion
  | .single a => .addrSet {Addr.addr a}
  | .addrs l => .addrSet (l.map Addr.addr).toFinset
  | .fn f => .pred f

/-- `Explorer._match`: a set criterion matches when its intersection with
`imark_set` is non-empty; a callable criterion is invoked on the path. -/
def matchCriterion : Criterion → Path → Finset Addr → Bool
  | .addrSet s, _, imark_set => decide (0 < (imark_set ∩ s).card)
  | .pred f, p, _ => f p

/-- The mutable state of one `Explorer` instance: criteria, depth and loop
configuration, the shared instruction counter, the active set and the four
terminal buckets, and the four termination thresholds (`None` = unbounded). -/
structure State where
  find : Criterion
  avoid : Criterion
  restrict : Criterion
  max_repeats : Nat
  max_depth : Nat
  min_depth : Nat
  instruction_counter : Addr → Nat
  active : List Path
  found : List Path
  avoided : List Path
  deviating : List Path
  looping : List Path
  num_find : Option Nat
  num_avoid : Option Nat
  num_deviate : Option Nat
  num_loop : Option Nat

/-- One threshold test of `done`: `self._num_X is not None and
len(self.X) >= self._num_X`. -/
def thresholdReached : Option Nat → List Path → Bool
  | none, _ => false
  | some n, bucket => decide (n ≤ bucket.length)

/-- `Explorer.done`: true when the active set is empty or any configured
threshold is reached by its bucket.  The Python property returns early on
the first true test; sequential early returns of `True` are a disjunction. -/
def done (e : State) : Bool :=
  decide (e.active.length = 0)
    || thresholdReached e.num_find e.found
    || thresholdReached e.num_avoid e.avoided
    || thresholdReached e.num_deviate e.deviating
    || thresholdReached e.num_loop e.looping

/-- The step-address set computed by `filter_path`: for a `SimIRSB` last run,
the set of its imark addresses; otherwise the two-element set
`{ p.last_run.addr, p.__class__.__name__ }` (the class name is a string, so
the two elements are always distinct). -/
def imarkSet (p : Path) : Finset Addr :=
  match p.last_run with
  | .simIRSB imarks => (imarks.map Addr.addr).toFinset
  | .atomicStep a => {Addr.addr a, Addr.tag p.className}

/-- The counter update `for addr in imark_set: self._instruction_counter[addr] += 1`:
each distinct member of the set is incremented by one (a Python set holds no
duplicates). -/
def recordCounter (c : Addr → Nat) (s : Finset Addr) : Addr → Nat :=
  fun a => if a ∈ s then c a + 1 else c a

/-- The guard of the restrict check:
`type(self._restrict) is not set or len(self._restrict) > 0`.
An empty address-set restrict criterion disables the check entirely. -/
def restrictApplies : Criterion → Bool
  | .addrSet s => decide (0 < s.card)
  | .pred _ => true

/-- `Explorer.filter_path`: the classification procedure.  Returns the updated
state together with the boolean the Python function returns (`true` keeps the
path active, `false` means it was filed into a terminal bucket). -/
def filter_path (e : State) (p : Path) : State × Bool :=
  if p.addr_backtrace.length < e.min_depth then (e, true)
  else
    let imark_set := imarkSet p
    let e1 : State :=
      { e with instruction_counter := recordCounter e.instruction_counter imark_set }
    if matchCriterion e1.avoid p imark_set then
      ({ e1 with avoided := e1.avoided ++ [p] }, false)
    else if matchCriterion e1.find p imark_set then
      ({ e1 with found := e1.found ++ [p] }, false)
    else if restrictApplies e1.restrict && ! matchCriterion e1.restrict p imark_set then
      ({ e1 with deviating := e1.deviating ++ [p] }, false)
    else if e1.max_repeats ≤ p.detect_loops e1.max_repeats then
      ({ e1 with looping := e1.looping ++ [p] }, false)
    else (e1, true)

/-- `Explorer.__init__` with every argument passed explicitly: criteria are
normalized through `_arg_to_set`, the counter starts empty, the four terminal
buckets start empty, and the initial paths form the active set. -/
def initExplorer (starts : List Path) (find avoid restrict : CriterionArg)
    (min_depth max_depth max_repeats : Nat)
    (num_find num_avoid num_deviate num_loop : Option Nat) : State :=
  { find := arg_to_set find
    avoid := arg_to_set avoid
    restrict := arg_to_set restrict
    max_repeats := max_repeats
    max_depth := max_depth
    min_depth := min_depth
    instruction_counter := fun _ => 0
    active := starts
    found := []
    avoided := []
    deviating := []
    looping := []
    num_find := num_find
    num_avoid := num_avoid
    num_deviate := num_deviate
    num_loop := num_loop }

/-- The constructor with every keyword left at its Python default:
`find=()`, `avoid=()`, `restrict=()`, `min_depth=0`, `max_depth=100`,
`max_repeats=10`, `num_find=1`, `num_avoid=None`, `num_deviate=1`,
`num_loop=None` (the signature of `__init__` in the source). -/
def initDefault (starts : List Path) : State :=
  initExplorer starts (.addrs []) (.addrs []) (.addrs [])
    0 100 10 (some 1) none (some 1) none

/-- Folding `filter_path` over a sequence of incoming paths, keeping only the
evolving state (the classification side of repeated `Classify` calls). -/
def runFilters : State → List Path → State
  | e, [] => e
  | e, p :: ps => runFilters (filter_path e p).1 ps

/-- The bucket-threshold part of `done`, without the empty-active test:
true when some configured finite threshold is reached by its bucket. -/
def bucketThresholdDone (e : State) : Bool :=
  thresholdReached e.num_find e.found
    || thresholdReached e.num_avoid e.avoided
    || thresholdReached e.num_deviate e.deviating
    || thresholdReached e.num_loop e.looping

/-- A path whose last run is an atomic (non-block) step at `0x400000`. -/
def atomicDemoPath : Path :=
  { addr_backtrace := [0x400000]
    last_run := .atomicStep 0x400000
    className := "Path"
    detect_loops := fun _ => 0 }

/-- A path stepping at `0x4000`, outside a `{0x3000}` restriction. -/
def deviateDemoPath : Path :=
  { addr_backtrace := [0x4000]
    last_run := .atomicStep 0x4000
    className := "Path"
    detect_loops := fun _ => 0 }

/-- A path stepping at `0x2000`, matching both demo criteria below. -/
def bothDemoPath : Path :=
  { addr_backtrace := [0x2000]
    last_run := .atomicStep 0x2000
    className := "Path"
    detect_loops := fun _ => 0 }

/-- A path with a backtrace of length 2, below a min-depth of 5. -/
def shallowDemoPath : Path :=
  { addr_backtrace := [0x1000, 0x1004]
    last_run := .atomicStep 0x1004
    className := "Path"
    detect_loops := fun _ => 0 }

/-- A path whose loop-repeat query reports 3 repetitions. -/
def loopDemoPath : Path :=
  { addr_backtrace := [0x5000]
    last_run := .atomicStep 0x5000
    className := "Path"
    detect_loops := fun _ => 3 }

/-- An explorer with all constructor defaults and no start paths. -/
def plainDemoExplorer : State := initDefault []

/-- An explorer constructed with every keyword at its Python default except
`restrict={0x3000}`, holding one active path. -/
def c2DemoExplorer : State :=
  initExplorer [atomicDemoPath] (.addrs []) (.addrs []) (.single 0x3000)
    0 100 10 (some 1) none (some 1) none

/-- An explorer whose avoid and find criteria are both `{0x2000}`. -/
def bothDemoExplorer : State :=
  initExplorer [] (.single 0x2000) (.single 0x2000) (.addrs [])
    0 100 10 (some 1) none none none

/-- An explorer with `min_depth = 5` and no criteria. -/
def minDepthDemoExplorer : State :=
  initExplorer [] (.addrs []) (.addrs []) (.addrs [])
    5 100 10 (some 1) none (some 1) none

/-- An explorer with `max_repeats = 3` and no criteria. -/
def loopDemoExplorer : State :=
  initExplorer [] (.addrs []) (.addrs []) (.addrs [])
    0 100 3 (some 1) none none none

/-- An explorer whose found bucket has already reached `num_find = 1`. -/
def doneDemoExplorer : State :=
  { initExplorer [atomicDemoPath] (.addrs []) (.addrs []) (.addrs [])
      0 100 10 (some 1) none none none with
    found := [bothDemoPath] }

/-- A threshold test succeeds exactly when the threshold is a finite `some n`
reached by the bucket length; `none` (unbounded) never succeeds. -/
theorem thresholdReached_iff (o : Option Nat) (b : List Path) :
    thresholdReached o b = true ↔ ∃ n, o = some n ∧ n ≤ b.length := by
  cases o <;> simp [thresholdReached]

/-- Threshold tests are monotone in the bucket length. -/
theorem thresholdReached_mono (o : Option Nat) (b b2 : List Path)
    (hlen : b.length ≤ b2.length) (h : thresholdReached o b = true) :
    thresholdReached o b2 = true := by
  cases o with
  | none => simp [thresholdReached] at h
  | some n =>
    simp only [thresholdReached, decide_eq_true_eq] at h ⊢
    omega

/-- Case analysis of `filter_path`: it either returns the state unchanged
(min-depth short circuit), or updates the counter and appends the path to
exactly one of the four buckets, or updates only the counter. -/
theorem filter_path_cases (e : State) (p : Path) :
    filter_path e p = (e, true)
    ∨ (∃ c, filter_path e p
        = ({ e with instruction_counter := c }, true))
    ∨ (∃ c, filter_path e p
        = ({ e with instruction_counter := c, avoided := e.avoided ++ [p] }, false))
    ∨ (∃ c, filter_path e p
        = ({ e with instruction_counter := c, found := e.found ++ [p] }, false))
    ∨ (∃ c, filter_path e p
        = ({ e with instruction_counter := c, deviating := e.deviating ++ [p] }, false))
    ∨ (∃ c, filter_path e p
        = ({ e with instruction_counter := c, looping := e.looping ++ [p] }, false)) := by
  simp only [filter_path]
  split_ifs
  · exact Or.inl rfl
  · exact Or.inr (Or.inr (Or.inl ⟨_, rfl⟩))
  · exact Or.inr (Or.inr (Or.inr (Or.inl ⟨_, rfl⟩)))
  · exact Or.inr (Or.inr (Or.inr (Or.inr (Or.inl ⟨_, rfl⟩))))
  · exact Or.inr (Or.inr (Or.inr (Or.inr (Or.inr ⟨_, rfl⟩))))
  · exact Or.inr (Or.inl ⟨_, rfl⟩)

/-- One classification call never shrinks a bucket and never changes the
termination thresholds or the active set. -/
theorem filter_path_grow (e : State) (p : Path) :
    e.found.length ≤ (filter_path e p).1.found.length
    ∧ e.avoided.length ≤ (filter_path e p).1.avoided.length
    ∧ e.deviating.length ≤ (filter_path e p).1.deviating.length
    ∧ e.looping.length ≤ (filter_path e p).1.looping.length
    ∧ (filter_path e p).1.num_find = e.num_find
    ∧ (filter_path e p).1.num_avoid = e.num_avoid
    ∧ (filter_path e p).1.num_deviate = e.num_deviate
    ∧ (filter_path e p).1.num_loop = e.num_loop
    ∧ (filter_path e p).1.active = e.active := by
  rcases filter_path_cases e p with h | ⟨c, h⟩ | ⟨c, h⟩ | ⟨c, h⟩ | ⟨c, h⟩ | ⟨c, h⟩ <;>
    simp [h]

/-- The bucket-threshold part of `done` survives one classification call. -/
theorem bucketThresholdDone_step (e : State) (p : Path)
    (h : bucketThresholdDone e = true) :
    bucketThresholdDone (filter_path e p).1 = true := by
  obtain ⟨hf, ha, hd, hl, nf, na, nd, nl, _⟩ := filter_path_grow e p
  simp only [bucketThresholdDone, Bool.or_eq_true] at h ⊢
  rw [nf, na, nd, nl]
  rcases h with ((h | h) | h) | h
  · exact Or.inl (Or.inl (Or.inl (thresholdReached_mono _ _ _ hf h)))
  · exact Or.inl (Or.inl (Or.inr (thresholdReached_mono _ _ _ ha h)))
  · exact Or.inl (Or.inr (thresholdReached_mono _ _ _ hd h))
  · exact Or.inr (thresholdReached_mono _ _ _ hl h)

/-- Claim C1: the spec requires the step-address set of an atomic (non-block)
step to be the singleton of the path's current address, with no auxiliary tag
as a matchable member.  The code instead builds the two-element set
`{ p.last_run.addr, p.__class__.__name__ }`: the class-name tag is a member,
it matches an address-set criterion containing it, and the shared counter
records a visit for it. -/
theorem C1_atomic_step_set_contains_class_tag :
    imarkSet atomicDemoPath = {Addr.addr 0x400000, Addr.tag "Path"}
    ∧ (imarkSet atomicDemoPath).card = 2
    ∧ Addr.tag "Path" ∈ imarkSet atomicDemoPath
    ∧ matchCriterion (Criterion.addrSet {Addr.tag "Path"}) atomicDemoPath
        (imarkSet atomicDemoPath) = true
    ∧ (filter_path plainDemoExplorer atomicDemoPath).1.instruction_counter
        (Addr.tag "Path") = 1 := by
  refine ⟨rfl, by decide, by decide, by decide, by decide⟩

/-- Claim C2: the constructor's own docstring says `num_deviate` defaults to
infinite, but the signature defaults it to 1: with every keyword left at its
default (restrict supplied as `{0x3000}`), a single deviating path makes
`done` true even though the active set is non-empty and every other bucket is
empty. -/
theorem C2_default_num_deviate_is_one :
    (initDefault []).num_deviate = some 1
    ∧ (runFilters c2DemoExplorer [deviateDemoPath]).deviating.length = 1
    ∧ (runFilters c2DemoExplorer [deviateDemoPath]).found.length = 0
    ∧ (runFilters c2DemoExplorer [deviateDemoPath]).avoided.length = 0
    ∧ (runFilters c2DemoExplorer [deviateDemoPath]).looping.length = 0
    ∧ (runFilters c2DemoExplorer [deviateDemoPath]).active.length = 1
    ∧ done (runFilters c2DemoExplorer [deviateDemoPath]) = true := by
  refine ⟨rfl, by decide, by decide, by decide, by decide, by decide, by decide⟩

/-- Claim C3: a path past the min-depth gate whose step addresses match both
the avoid and the find criterion is appended to the avoided bucket, the found
bucket is untouched, and the path leaves the active set (avoid is checked
before find). -/
theorem C3_avoid_precedes_find (e : State) (p : Path)
    (hd : e.min_depth ≤ p.addr_backtrace.length)
    (ha : matchCriterion e.avoid p (imarkSet p) = true)
    (hf : matchCriterion e.find p (imarkSet p) = true) :
    (filter_path e p).1.avoided = e.avoided ++ [p]
    ∧ (filter_path e p).1.found = e.found
    ∧ (filter_path e p).2 = false := by
  have hnd : ¬ p.addr_backtrace.length < e.min_depth := Nat.not_lt.mpr hd
  simp [filter_path, hnd, ha]

/-- Witness for C3 at a concrete input: avoid and find both `{0x2000}`, the
path stepping at `0x2000`. -/
theorem C3_avoid_precedes_find_witness :
    (filter_path bothDemoExplorer bothDemoPath).1.avoided
        = bothDemoExplorer.avoided ++ [bothDemoPath]
    ∧ (filter_path bothDemoExplorer bothDemoPath).1.found = bothDemoExplorer.found
    ∧ (filter_path bothDemoExplorer bothDemoPath).2 = false :=
  C3_avoid_precedes_find bothDemoExplorer bothDemoPath (by decide) (by decide) (by decide)

/-- Claim C4: `done` is true exactly when the active set is empty or some
finite threshold is reached by its bucket; an unbounded (`none`) threshold
never triggers by itself.  `done` is a pure function of the state. -/
theorem C4_done_characterization (e : State) :
    done e = true ↔
      (e.active.length = 0
        ∨ (∃ n, e.num_find = some n ∧ n ≤ e.found.length)
        ∨ (∃ n, e.num_avoid = some n ∧ n ≤ e.avoided.length)
        ∨ (∃ n, e.num_deviate = some n ∧ n ≤ e.deviating.length)
        ∨ (∃ n, e.num_loop = some n ∧ n ≤ e.looping.length)) := by
  simp only [done, Bool.or_eq_true, decide_eq_true_eq, thresholdReached_iff,
    List.length_eq_zero, or_assoc]

/-- Claim C5: a path whose backtrace is shorter than `min_depth` is kept
active with the state wholly unchanged: no counter increment and no bucket
append, whatever its addresses would match. -/
theorem C5_min_depth_exemption (e : State) (p : Path)
    (h : p.addr_backtrace.length < e.min_depth) :
    filter_path e p = (e, true) := by
  simp [filter_path, h]

/-- Witness for C5 at a concrete input: `min_depth = 5`, backtrace length 2. -/
theorem C5_min_depth_exemption_witness :
    filter_path minDepthDemoExplorer shallowDemoPath = (minDepthDemoExplorer, true) :=
  C5_min_depth_exemption minDepthDemoExplorer shallowDemoPath (by decide)

/-- Claim C6: with an empty address-set restrict criterion the guard
`type(restrict) is not set or len(restrict) > 0` is false, so the restrict
check never fires and no path is ever filed into the deviating bucket. -/
theorem C6_empty_restrict_never_deviates (e : State) (p : Path)
    (h : e.restrict = Criterion.addrSet ∅) :
    (filter_path e p).1.deviating = e.deviating := by
  simp only [filter_path]
  split_ifs <;> simp_all [restrictApplies]

/-- Witness for C6 at a concrete input: the all-defaults explorer (restrict
is the empty set) and a path stepping anywhere. -/
theorem C6_empty_restrict_never_deviates_witness :
    (filter_path plainDemoExplorer deviateDemoPath).1.deviating
      = plainDemoExplorer.deviating :=
  C6_empty_restrict_never_deviates plainDemoExplorer deviateDemoPath rfl

/-- Claim C7: a path past the min-depth gate that matches neither avoid nor
find nor a restrict violation, and whose loop-repeat query reports at least
`max_repeats` repetitions, is appended to the looping bucket and leaves the
active set. -/
theorem C7_loop_classification (e : State) (p : Path)
    (hd : e.min_depth ≤ p.addr_backtrace.length)
    (ha : matchCriterion e.avoid p (imarkSet p) = false)
    (hf : matchCriterion e.find p (imarkSet p) = false)
    (hr : (restrictApplies e.restrict
            && ! matchCriterion e.restrict p (imarkSet p)) = false)
    (hl : e.max_repeats ≤ p.detect_loops e.max_repeats) :
    (filter_path e p).1.looping = e.looping ++ [p]
    ∧ (filter_path e p).2 = false := by
  have hnd : ¬ p.addr_backtrace.length < e.min_depth := Nat.not_lt.mpr hd
  simp [filter_path, hnd, ha, hf, hr, hl]

/-- Witness for C7 at a concrete input: `max_repeats = 3`, a path reporting
3 repetitions and matching no criterion. -/
theorem C7_loop_classification_witness :
    (filter_path loopDemoExplorer loopDemoPath).1.looping
      = loopDemoExplorer.looping ++ [loopDemoPath]
    ∧ (filter_path loopDemoExplorer loopDemoPath).2 = false :=
  C7_loop_classification loopDemoExplorer loopDemoPath
    (by decide) (by decide) (by decide) (by decide) (by decide)

/-- The counter of a path past the min-depth gate is always the recorded
update, whatever disposition the path then receives. -/
theorem filter_path_counter (e : State) (p : Path)
    (hd : e.min_depth ≤ p.addr_backtrace.length) :
    (filter_path e p).1.instruction_counter
      = recordCounter e.instruction_counter (imarkSet p) := by
  have hnd : ¬ p.addr_backtrace.length < e.min_depth := Nat.not_lt.mpr hd
  simp only [filter_path]
  rw [if_neg hnd]
  split_ifs <;> rfl

/-- Claim C8: for every path past the min-depth gate, every address in its
step-address set is counted exactly once more, and every other address keeps
its count, regardless of which disposition the path receives. -/
theorem C8_counter_increment (e : State) (p : Path)
    (hd : e.min_depth ≤ p.addr_backtrace.length) (a : Addr) :
    (filter_path e p).1.instruction_counter a
      = e.instruction_counter a + (if a ∈ imarkSet p then 1 else 0) := by
  rw [filter_path_counter e p hd]
  by_cases hm : a ∈ imarkSet p <;> simp [recordCounter, hm]

/-- Witness for C8 at a concrete input: the all-defaults explorer, the atomic
demo path, and its own step address. -/
theorem C8_counter_increment_witness :
    (filter_path plainDemoExplorer atomicDemoPath).1.instruction_counter
        (Addr.addr 0x400000)
      = plainDemoExplorer.instruction_counter (Addr.addr 0x400000)
        + (if Addr.addr 0x400000 ∈ imarkSet atomicDemoPath then 1 else 0) :=
  C8_counter_increment plainDemoExplorer atomicDemoPath (by decide) (Addr.addr 0x400000)

/-- Claim C9: once the bucket-threshold part of `done` is true, it stays true
across any further sequence of classification calls, and so does `done`
itself: buckets only grow and the thresholds never change. -/
theorem C9_threshold_done_monotone (e : State) (ps : List Path)
    (h : bucketThresholdDone e = true) :
    bucketThresholdDone (runFilters e ps) = true
    ∧ done (runFilters e ps) = true := by
  have key : bucketThresholdDone (runFilters e ps) = true := by
    induction ps generalizing e with
    | nil => exact h
    | cons p ps ih => exact ih (filter_path e p).1 (bucketThresholdDone_step e p h)
  refine ⟨key, ?_⟩
  simp only [done, bucketThresholdDone, Bool.or_eq_true] at key ⊢
  tauto

/-- Witness for C9 at a concrete input: the found bucket already holds
`num_find = 1` paths; classifying one more (deviating) path keeps `done`
true. -/
theorem C9_threshold_done_monotone_witness :
    bucketThresholdDone (runFilters doneDemoExplorer [deviateDemoPath]) = true
    ∧ done (runFilters doneDemoExplorer [deviateDemoPath]) = true :=
  C9_threshold_done_monotone doneDemoExplorer [deviateDemoPath] (by decide)

/-- Claim C10: one classification call keeps the path active (returns true)
exactly when no bucket is modified, and files it (returns false) exactly when
the path is appended to precisely one of the four buckets, the other three
left unchanged. -/
theorem C10_at_most_one_bucket (e : State) (p : Path) :
    ((filter_path e p).2 = true ↔
      ((filter_path e p).1.found = e.found
        ∧ (filter_path e p).1.avoided = e.avoided
        ∧ (filter_path e p).1.deviating = e.deviating
        ∧ (filter_path e p).1.looping = e.looping))
    ∧ ((filter_path e p).2 = false ↔
      (((filter_path e p).1.avoided = e.avoided ++ [p]
          ∧ (filter_path e p).1.found = e.found
          ∧ (filter_path e p).1.deviating = e.deviating
          ∧ (filter_path e p).1.looping = e.looping)
        ∨ ((filter_path e p).1.found = e.found ++ [p]
          ∧ (filter_path e p).1.avoided = e.avoided
          ∧ (filter_path e p).1.deviating = e.deviating
          ∧ (filter_path e p).1.looping = e.looping)
        ∨ ((filter_path e p).1.deviating = e.deviating ++ [p]
          ∧ (filter_path e p).1.found = e.found
          ∧ (filter_path e p).1.avoided = e.avoided
          ∧ (filter_path e p).1.looping = e.looping)
        ∨ ((filter_path e p).1.looping = e.looping ++ [p]
          ∧ (filter_path e p).1.found = e.found
          ∧ (filter_path e p).1.avoided = e.avoided
          ∧ (filter_path e p).1.deviating = e.deviating))) := by
  rcases filter_path_cases e p with h | ⟨c, h⟩ | ⟨c, h⟩ | ⟨c, h⟩ | ⟨c, h⟩ | ⟨c, h⟩ <;>
    simp [h]

end Explorer
